import Mathlib

/-!
Verification of the ESTOQUE front-end client logic.

The repository is a React single-page inventory UI (`src/src/App.tsx` and a
near-duplicate richer revision in `src/unnamed/part_000`).  This file gives a
shallow embedding of the client-side data model and the pure content of its
operations: the filter engine (`filteredProdutos`), pagination
(`paginatedProdutos`, the `Paginacao` click guard), the CRUD functions
(`addProduto`, `updateProduto`, `deleteProduto`, `addMov`, `deleteMov`), the
optimistic priority toggle (`togglePrioritario`) and the reorder-report
generator (`Relatorios.handleGenerate`).

Strings are modelled as `List Char`; JavaScript numbers holding integral
quantities are modelled as `Int`.  An HTTP interaction is modelled by a
`FetchOutcome`: either the request (or JSON parsing) threw, or a response
arrived carrying its `ok` flag (2xx status) and the parsed body.  Each async
handler in the source becomes a pure state transformer parameterised by the
outcome of its single fetch.
-/

abbrev Str := List Char

/-- JavaScript `s.toLowerCase()` on the character-list model of a string. -/
def toLowerStr (s : Str) : Str := s.map Char.toLower

/-- JavaScript `s.trim()`: strip leading and trailing whitespace. -/
def trimStr (s : Str) : Str :=
  ((s.dropWhile Char.isWhitespace).reverse.dropWhile Char.isWhitespace).reverse

/-- Does `s` start with `n`?  Helper for the substring test. -/
def strStartsWith : Str → Str → Bool
  | _, [] => true
  | [], _ :: _ => false
  | c :: s, d :: n => decide (c = d) && strStartsWith s n

/-- JavaScript `hay.includes(needle)`: substring occurrence test. -/
def containsSub : Str → Str → Bool
  | [], needle => needle.isEmpty
  | c :: t, needle => strStartsWith (c :: t) needle || containsSub t needle

-- --- DATA MODEL (TypeScript interfaces from the source) ---

/-- The `Produto` interface of `src/unnamed/part_000` (the richer revision;
`src/src/App.tsx` is the same minus `prioritario` and `valorUnitario`).
Optional TypeScript fields become `Option`. -/
structure Produto where
  id : Str
  sku : Str
  nome : Str
  descricao : Option Str := none
  categoria : Option Str := none
  unidade : Str := []
  quantidade : Int
  estoqueMinimo : Option Int := none
  localArmazenamento : Option Str := none
  fornecedor : Option Str := none
  criadoEm : Str := []
  atualizadoEm : Option Str := none
  prioritario : Option Bool := none
  valorUnitario : Option Rat := none
deriving DecidableEq, Repr

/-- `TipoMov = 'entrada' | 'saida' | 'ajuste'`. -/
inductive TipoMov where
  | entrada
  | saida
  | ajuste
deriving DecidableEq, Repr

/-- The `Movimentacao` interface. -/
structure Movimentacao where
  id : Str
  produtoId : Str
  tipo : TipoMov
  quantidade : Int
  motivo : Option Str := none
  criadoEm : Str := []
deriving DecidableEq, Repr

/-- The slice of React state the CRUD handlers touch: the partial fast-page
list `produtos`, the full list `allProdutos`, and the movement list `movs`. -/
structure AppState where
  produtos : List Produto := []
  allProdutos : List Produto := []
  movs : List Movimentacao := []
deriving DecidableEq, Repr

/-- Outcome of one `fetch` call as the handler observes it: `thrown` when the
request or `response.json()` threw (network failure), or `response ok body`
where `ok` is `response.ok` (2xx) and `body` the parsed JSON. -/
inductive FetchOutcome (β : Type) where
  | thrown : FetchOutcome β
  | response : Bool → β → FetchOutcome β
deriving DecidableEq, Repr

-- --- CRUD HANDLERS (state transformers from App.tsx / part_000) ---

/-- `addProduto`: POST `/api/produtos`; on `!response.ok` it throws into the
`catch` (which only logs), otherwise prepends the server's `novoProduto` to
`allProdutos`. -/
def addProduto (st : AppState) (resp : FetchOutcome Produto) : AppState :=
  match resp with
  | .response true novoProduto =>
      { st with allProdutos := novoProduto :: st.allProdutos }
  | _ => st

/-- `updateProduto`: PATCH `/api/produtos/{id}`; on success replaces the entry
whose id matches by the server's `produtoAtualizado`. -/
def updateProduto (st : AppState) (id : Str) (resp : FetchOutcome Produto) :
    AppState :=
  match resp with
  | .response true produtoAtualizado =>
      { st with allProdutos :=
          st.allProdutos.map fun x =>
            if x.id = id then produtoAtualizado else x }
  | _ => st

/-- `deleteProduto`: DELETE `/api/produtos/{id}`.  The source never reads
`response.ok`: it awaits the fetch and then filters both lists, so any
response (success or not) mutates state; only a thrown fetch reaches the
`catch` and leaves state unchanged. -/
def deleteProduto (st : AppState) (id : Str) (resp : FetchOutcome Unit) :
    AppState :=
  match resp with
  | .thrown => st
  | .response _ _ =>
      { st with
          allProdutos := st.allProdutos.filter fun p => decide (p.id ≠ id),
          movs := st.movs.filter fun m => decide (m.produtoId ≠ id) }

/-- `addMov`: POST `/api/movimentacoes`; on success the body is
`{movimentacao, produto}`: the movement is prepended to `movs` and the cached
product whose id matches `produto.id` is replaced by `produto`. -/
def addMov (st : AppState) (resp : FetchOutcome (Movimentacao × Produto)) :
    AppState :=
  match resp with
  | .response true (movimentacao, produto) =>
      { st with
          movs := movimentacao :: st.movs,
          allProdutos :=
            st.allProdutos.map fun p =>
              if p.id = produto.id then produto else p }
  | _ => st

/-- `deleteMov`: DELETE `/api/movimentacoes/{id}`; on success the body is
`{produtoAtualizado}`: the movement is removed and the matching cached
product replaced by `produtoAtualizado`. -/
def deleteMov (st : AppState) (id : Str) (resp : FetchOutcome Produto) :
    AppState :=
  match resp with
  | .response true produtoAtualizado =>
      { st with
          movs := st.movs.filter fun m => decide (m.id ≠ id),
          allProdutos :=
            st.allProdutos.map fun p =>
              if p.id = produtoAtualizado.id then produtoAtualizado else p }
  | _ => st

-- --- OPTIMISTIC PRIORITY TOGGLE (part_000 togglePrioritario) ---

/-- Phase 1 of `togglePrioritario`: the immediate optimistic update
`prev.map (p => p.id === id ? {...p, prioritario: !currentState} : p)`. -/
def togglePrioritarioOptimistic (ps : List Produto) (id : Str)
    (currentState : Bool) : List Produto :=
  ps.map fun p =>
    if p.id = id then { p with prioritario := some (!currentState) } else p

/-- Phase 3 of `togglePrioritario` (the `catch` block): revert the field to
`currentState`. -/
def togglePrioritarioRevert (ps : List Produto) (id : Str)
    (currentState : Bool) : List Produto :=
  ps.map fun p =>
    if p.id = id then { p with prioritario := some currentState } else p

/-- `togglePrioritario` end to end: optimistic write, then the PATCH; a
non-ok response throws and, like a network error, triggers the revert. -/
def togglePrioritario (ps : List Produto) (id : Str) (currentState : Bool)
    (resp : FetchOutcome Unit) : List Produto :=
  let optimistic := togglePrioritarioOptimistic ps id currentState
  match resp with
  | .response true _ => optimistic
  | _ => togglePrioritarioRevert optimistic id currentState

-- --- CLIENT-SIDE FILTER ENGINE (part_000 filteredProdutos) ---

/-- The four filter inputs: debounced query, category selection (empty string
means unset, as in the source's falsiness test), and the two flags. -/
structure FilterCriteria where
  debouncedQ : Str := []
  categoriaFilter : Str := []
  mostrarAbaixoMin : Bool := false
  mostrarPrioritarios : Bool := false
deriving DecidableEq, Repr

/-- `matchesQuery`: empty query, or case-insensitive substring of name, SKU,
or category (`p.categoria?.toLowerCase().includes(query)` is falsy when the
category is undefined). -/
def matchesQuery (query : Str) (p : Produto) : Bool :=
  decide (query = []) ||
  containsSub (toLowerStr p.nome) query ||
  containsSub (toLowerStr p.sku) query ||
  (match p.categoria with
   | some c => containsSub (toLowerStr c) query
   | none => false)

/-- `matchesCategoria`: `!categoriaFilter || p.categoria === categoriaFilter`
(an undefined category never equals a non-empty selection). -/
def matchesCategoria (categoriaFilter : Str) (p : Produto) : Bool :=
  decide (categoriaFilter = []) || decide (p.categoria = some categoriaFilter)

/-- `matchesAbaixoMin`: flag unset, or minimum defined and quantity ≤ it. -/
def matchesAbaixoMin (mostrarAbaixoMin : Bool) (p : Produto) : Bool :=
  !mostrarAbaixoMin ||
  (match p.estoqueMinimo with
   | some m => decide (p.quantidade ≤ m)
   | none => false)

/-- `matchesPrioritario`: flag unset, or `p.prioritario` truthy. -/
def matchesPrioritario (mostrarPrioritarios : Bool) (p : Produto) : Bool :=
  !mostrarPrioritarios || p.prioritario.getD false

/-- The predicate of the `allProdutos.filter` callback, with the query
precomputed as `debouncedQ.trim().toLowerCase()` exactly as in the source. -/
def codeFilterPred (c : FilterCriteria) (p : Produto) : Bool :=
  matchesQuery (toLowerStr (trimStr c.debouncedQ)) p &&
  matchesCategoria c.categoriaFilter p &&
  matchesAbaixoMin c.mostrarAbaixoMin p &&
  matchesPrioritario c.mostrarPrioritarios p

/-- `filteredProdutos`: while `loadingAll` the partial list is shown as-is,
afterwards the full list is filtered. -/
def filteredProdutos (loadingAll : Bool) (produtos allProdutos : List Produto)
    (c : FilterCriteria) : List Produto :=
  if loadingAll then produtos
  else allProdutos.filter (codeFilterPred c)

-- --- PAGINATION ---

/-- `ITEMS_PER_PAGE` of `src/src/App.tsx` (the `part_000` revision uses 30;
the slicing logic is parameterised below so both are covered). -/
def ITEMS_PER_PAGE : Nat := 25

/-- The slice `filteredProdutos.slice(startIndex, startIndex + itemsPerPage)`
with `startIndex = (page - 1) * itemsPerPage`, for a 1-based page. -/
def pageSlice (itemsPerPage : Nat) (filtered : List Produto) (page : Nat) :
    List Produto :=
  (filtered.drop ((page - 1) * itemsPerPage)).take itemsPerPage

/-- `paginatedProdutos` as in `App.tsx` (page size fixed to 25). -/
def paginatedProdutos (filtered : List Produto) (page : Nat) : List Produto :=
  pageSlice ITEMS_PER_PAGE filtered page

/-- `Math.ceil(totalItems / itemsPerPage)` on naturals (for a positive page
size this is exactly the ceiling of the real division). -/
def totalPages (totalItems itemsPerPage : Nat) : Nat :=
  (totalItems + itemsPerPage - 1) / itemsPerPage

/-- `Paginacao.handlePageClick`: returns the page passed to `onPageChange`,
or `none` when the guard `page < 1 || page > totalPages || page === currentPage`
suppresses the call.  Pages are `Int` since a JS number can be below 1. -/
def handlePageClick (totalItems itemsPerPage : Nat) (currentPage page : Int) :
    Option Int :=
  if page < 1 ∨ (totalPages totalItems itemsPerPage : Int) < page ∨
      page = currentPage then none
  else some page

/-- The `useEffect` keyed on `[filteredProdutos.length]`: React re-runs it
(setting the page to 1) exactly when the length differs from the previous
render's; otherwise the page survives. -/
def pageResetEffect (prevLen newLen page : Nat) : Nat :=
  if newLen = prevLen then page else 1

-- --- REORDER REPORT (Relatorios.handleGenerate) ---

/-- The report's stock filter: minimum defined and quantity strictly below
it (`p.estoqueMinimo !== undefined && p.quantidade < p.estoqueMinimo`). -/
def reorderPred (p : Produto) : Bool :=
  match p.estoqueMinimo with
  | some m => decide (p.quantidade < m)
  | none => false

/-- The report's optional category restriction
(`categoriaSelecionada ? produtos.filter(...) : produtos`). -/
def produtosParaRelatorio (produtos : List Produto)
    (categoriaSelecionada : Str) : List Produto :=
  if categoriaSelecionada = [] then produtos
  else produtos.filter fun p => decide (p.categoria = some categoriaSelecionada)

/-- The rows of `Relatorios.handleGenerate`: category restriction, strict
below-minimum filter, then each product paired with
`qtdRepor = p.estoqueMinimo! - p.quantidade`. -/
def relatorioItemsToReorder (produtos : List Produto)
    (categoriaSelecionada : Str) : List (Produto × Int) :=
  ((produtosParaRelatorio produtos categoriaSelecionada).filter
    reorderPred).map fun p => (p, p.estoqueMinimo.getD 0 - p.quantidade)

-- --- SPEC-WORDED PREDICATES (for refinement statements) ---

/-- The filter predicate as the specification words it: the query (trimmed,
lowercased) is empty or occurs as a substring of the lowercased name, SKU or
category; the category selection is unset or equal; if the below-minimum flag
is set the minimum is defined and the quantity is at most it; if the priority
flag is set the priority field is `true`. -/
def claimFilterPred (c : FilterCriteria) (p : Produto) : Prop :=
  (toLowerStr (trimStr c.debouncedQ) = [] ∨
    (∃ l r, toLowerStr p.nome = l ++ toLowerStr (trimStr c.debouncedQ) ++ r) ∨
    (∃ l r, toLowerStr p.sku = l ++ toLowerStr (trimStr c.debouncedQ) ++ r) ∨
    (∃ cat l r, p.categoria = some cat ∧
      toLowerStr cat = l ++ toLowerStr (trimStr c.debouncedQ) ++ r)) ∧
  (c.categoriaFilter = [] ∨ p.categoria = some c.categoriaFilter) ∧
  (c.mostrarAbaixoMin = true →
    ∃ m, p.estoqueMinimo = some m ∧ p.quantidade ≤ m) ∧
  (c.mostrarPrioritarios = true → p.prioritario = some true)

/-- The reorder-report predicate as the specification words it. -/
def claimReorderPred (cat : Str) (p : Produto) : Prop :=
  (cat = [] ∨ p.categoria = some cat) ∧
  ∃ m, p.estoqueMinimo = some m ∧ p.quantidade < m

-- --- HELPER LEMMAS: substring search ---

/-- `strStartsWith` decides the prefix relation. -/
lemma strStartsWith_iff (s n : Str) :
    strStartsWith s n = true ↔ ∃ r, s = n ++ r := by
  induction n generalizing s with
  | nil => simp [strStartsWith]
  | cons d ns ih =>
    cases s with
    | nil => simp [strStartsWith]
    | cons c t =>
      simp only [strStartsWith, Bool.and_eq_true, decide_eq_true_eq, ih,
        List.cons_append, List.cons.injEq]
      constructor
      · rintro ⟨rfl, r, rfl⟩
        exact ⟨r, rfl, rfl⟩
      · rintro ⟨r, rfl, rfl⟩
        exact ⟨rfl, r, rfl⟩

/-- `containsSub` decides substring occurrence. -/
lemma containsSub_iff (hay needle : Str) :
    containsSub hay needle = true ↔ ∃ l r, hay = l ++ needle ++ r := by
  induction hay with
  | nil =>
    simp only [containsSub, List.isEmpty_iff]
    constructor
    · rintro rfl
      exact ⟨[], [], rfl⟩
    · rintro ⟨l, r, h⟩
      rcases List.append_eq_nil.mp h.symm with ⟨h1, h2⟩
      exact (List.append_eq_nil.mp h1).2
  | cons c t ih =>
    simp only [containsSub, Bool.or_eq_true, strStartsWith_iff, ih]
    constructor
    · rintro (⟨r, hr⟩ | ⟨l, r, rfl⟩)
      · exact ⟨[], r, by simpa using hr⟩
      · exact ⟨c :: l, r, rfl⟩
    · rintro ⟨l, r, h⟩
      cases l with
      | nil => exact Or.inl ⟨r, by simpa using h⟩
      | cons x l' =>
        rcases List.cons.injEq .. ▸ h with ⟨rfl, h2⟩
        exact Or.inr ⟨l', r, h2⟩

-- --- POINTWISE CORRESPONDENCE: code filter clauses vs. spec wording ---

lemma matchesQuery_iff (q : Str) (p : Produto) :
    matchesQuery q p = true ↔
      (q = [] ∨ (∃ l r, toLowerStr p.nome = l ++ q ++ r) ∨
        (∃ l r, toLowerStr p.sku = l ++ q ++ r) ∨
        ∃ cat l r, p.categoria = some cat ∧ toLowerStr cat = l ++ q ++ r) := by
  cases hc : p.categoria <;>
    simp [matchesQuery, hc, containsSub_iff, or_assoc]

lemma matchesCategoria_iff (f : Str) (p : Produto) :
    matchesCategoria f p = true ↔ (f = [] ∨ p.categoria = some f) := by
  simp [matchesCategoria]

lemma matchesAbaixoMin_iff (b : Bool) (p : Produto) :
    matchesAbaixoMin b p = true ↔
      (b = true → ∃ m, p.estoqueMinimo = some m ∧ p.quantidade ≤ m) := by
  cases b <;> cases hm : p.estoqueMinimo <;>
    simp [matchesAbaixoMin, hm]

lemma matchesPrioritario_iff (b : Bool) (p : Produto) :
    matchesPrioritario b p = true ↔ (b = true → p.prioritario = some true) := by
  cases b <;> cases hp : p.prioritario <;>
    simp [matchesPrioritario, hp]

lemma codeFilterPred_iff_claim (c : FilterCriteria) (p : Produto) :
    codeFilterPred c p = true ↔ claimFilterPred c p := by
  simp only [codeFilterPred, Bool.and_eq_true, matchesQuery_iff,
    matchesCategoria_iff, matchesAbaixoMin_iff, matchesPrioritario_iff,
    claimFilterPred, and_assoc]

instance instDecidableClaimFilterPred (c : FilterCriteria) (p : Produto) :
    Decidable (claimFilterPred c p) :=
  decidable_of_iff (codeFilterPred c p = true) (codeFilterPred_iff_claim c p)

/-- **C1.** Once the full dataset has loaded (`loadingAll = false`), the
derived filtered list equals exactly the subsequence of the in-memory product
list retaining the products that satisfy the spec's conjunction: empty
trimmed-lowercased query or case-insensitive substring match on name, SKU or
category; category selection unset or equal; below-minimum flag off or
minimum defined with quantity ≤ minimum; priority flag off or priority set to
`true`. -/
theorem filteredProdutos_eq_claim (produtos allProdutos : List Produto)
    (c : FilterCriteria) :
    filteredProdutos false produtos allProdutos c =
      allProdutos.filter fun p => decide (claimFilterPred c p) := by
  have h1 : filteredProdutos false produtos allProdutos c =
      allProdutos.filter (codeFilterPred c) := rfl
  rw [h1]
  apply List.filter_congr
  intro p _
  by_cases hc : claimFilterPred c p
  · rw [decide_eq_true hc, (codeFilterPred_iff_claim c p).mpr hc]
  · rw [decide_eq_false hc]
    cases hcp : codeFilterPred c p
    · rfl
    · exact absurd ((codeFilterPred_iff_claim c p).mp hcp) hc

-- --- SAMPLE DATA (used by witnesses and counterexamples) ---

def sampleA : Produto :=
  { id := "a".toList, sku := "sku-a".toList, nome := "alpha".toList,
    quantidade := 10, estoqueMinimo := some 5 }

def sampleB : Produto :=
  { id := "b".toList, sku := "sku-b".toList, nome := "beta".toList,
    quantidade := 4, estoqueMinimo := some 4, prioritario := some true }

def sampleAUpd : Produto := { sampleA with quantidade := 13 }

def sampleMov : Movimentacao :=
  { id := "m1".toList, produtoId := "a".toList, tipo := .entrada,
    quantidade := 3 }

def sampleState : AppState :=
  { produtos := [], allProdutos := [sampleA], movs := [sampleMov] }

-- --- C2: optimistic toggle with rollback ---

lemma togglePrioritarioRevert_optimistic (ps : List Produto) (id : Str)
    (s : Bool) :
    togglePrioritarioRevert (togglePrioritarioOptimistic ps id s) id s =
      (ps.map fun p =>
        if p.id = id then { p with prioritario := some s } else p) := by
  unfold togglePrioritarioRevert togglePrioritarioOptimistic
  rw [List.map_map]
  apply List.map_congr_left
  intro p _
  by_cases h : p.id = id <;> simp [h]

/-- **C2.** The optimistic toggle first writes `¬s`; on a successful response
the flag stays `¬s`, on a thrown request or non-ok response the flag of the
matching product is reverted to exactly `s` (all other products untouched in
every case), and when every matching product already carried `prioritario =
some s` the failure path restores the list exactly. -/
theorem togglePrioritario_spec (ps : List Produto) (id : Str) (s : Bool) :
    togglePrioritario ps id s (.response true ()) =
      (ps.map fun p =>
        if p.id = id then { p with prioritario := some (!s) } else p) ∧
    togglePrioritario ps id s .thrown =
      (ps.map fun p =>
        if p.id = id then { p with prioritario := some s } else p) ∧
    togglePrioritario ps id s (.response false ()) =
      (ps.map fun p =>
        if p.id = id then { p with prioritario := some s } else p) ∧
    ((∀ p ∈ ps, p.id = id → p.prioritario = some s) →
      togglePrioritario ps id s .thrown = ps ∧
      togglePrioritario ps id s (.response false ()) = ps) := by
  have hrev := togglePrioritarioRevert_optimistic ps id s
  refine ⟨rfl, hrev, hrev, fun hall => ?_⟩
  have hid : (ps.map fun p =>
      if p.id = id then { p with prioritario := some s } else p) = ps := by
    have : ∀ p ∈ ps,
        (if p.id = id then { p with prioritario := some s } else p) =
          (fun a => a) p := by
      intro p hp
      by_cases h : p.id = id
      · have hps := hall p hp h
        cases p
        simp_all
      · simp [h]
    rw [List.map_congr_left this, List.map_id']
  exact ⟨hrev.trans hid, hrev.trans hid⟩

/-- Witness for C2: a concrete product whose priority flag is `some true`
survives a failed toggle unchanged. -/
theorem togglePrioritario_spec_witness :
    togglePrioritario [sampleB] ("b".toList) true .thrown = [sampleB] ∧
    togglePrioritario [sampleB] ("b".toList) true (.response false ()) =
      [sampleB] :=
  (togglePrioritario_spec [sampleB] ("b".toList) true).2.2.2 (by decide)

-- --- C3: frame of failed writes (corrected: deleteProduto ignores ok) ---

/-- **C3 counterexample.** `deleteProduto` never reads `response.ok`: with a
non-2xx response it still removes the product and its movements, so the claim
that every non-optimistic write leaves state unchanged on a non-success
response is false at this concrete input. -/
theorem deleteProduto_non2xx_mutates :
    deleteProduto sampleState ("a".toList) (.response false ()) ≠
      sampleState ∧
    (deleteProduto sampleState ("a".toList) (.response false ())).allProdutos
      = [] ∧
    sampleState.allProdutos = [sampleA] ∧
    (deleteProduto sampleState ("a".toList) (.response false ())).movs = [] ∧
    sampleState.movs = [sampleMov] := by
  refine ⟨?_, rfl, rfl, rfl, rfl⟩
  decide

/-- **C3 amended.** Create product, update product, create movement and
delete movement leave both cached lists unchanged on a thrown request or a
non-ok response; delete product is unchanged only on a thrown request, while
any response — whatever its status — removes the matching product and its
movements. -/
theorem writes_frame_on_error (st : AppState) (id : Str) (ok : Bool)
    (prod : Produto) (mov : Movimentacao) :
    addProduto st .thrown = st ∧
    addProduto st (.response false prod) = st ∧
    updateProduto st id .thrown = st ∧
    updateProduto st id (.response false prod) = st ∧
    addMov st .thrown = st ∧
    addMov st (.response false (mov, prod)) = st ∧
    deleteMov st id .thrown = st ∧
    deleteMov st id (.response false prod) = st ∧
    deleteProduto st id .thrown = st ∧
    (deleteProduto st id (.response ok ())).allProdutos =
      st.allProdutos.filter (fun p => decide (p.id ≠ id)) ∧
    (deleteProduto st id (.response ok ())).movs =
      st.movs.filter (fun m => decide (m.produtoId ≠ id)) :=
  ⟨rfl, rfl, rfl, rfl, rfl, rfl, rfl, rfl, rfl, rfl, rfl⟩

-- --- C4: movement mutations take the server's product verbatim ---

/-- **C4.** After a successful movement creation or deletion the cached
product list is exactly the old list with every entry whose id matches the
server-returned product replaced by that very object (so its quantity is the
server's, never a locally recomputed one), and entries with any other id are
still present, untouched. -/
theorem mov_server_authoritative (st : AppState) (mov : Movimentacao)
    (prod : Produto) (id : Str) :
    (addMov st (.response true (mov, prod))).allProdutos =
      (st.allProdutos.map fun p => if p.id = prod.id then prod else p) ∧
    (deleteMov st id (.response true prod)).allProdutos =
      (st.allProdutos.map fun p => if p.id = prod.id then prod else p) ∧
    (∀ p ∈ (addMov st (.response true (mov, prod))).allProdutos,
      p.id = prod.id → p = prod) ∧
    (∀ p ∈ st.allProdutos, p.id ≠ prod.id →
      p ∈ (addMov st (.response true (mov, prod))).allProdutos) := by
  refine ⟨rfl, rfl, ?_, ?_⟩
  · intro p hp hid
    rcases List.mem_map.mp hp with ⟨a, _, rfl⟩
    by_cases h : a.id = prod.id
    · simp [h]
    · rw [if_neg h] at hid
      exact absurd hid h
  · intro p hp hne
    have hfix : (if p.id = prod.id then prod else p) = p := if_neg hne
    exact hfix ▸ List.mem_map_of_mem _ hp

/-- Witness for C4: a product with a different id survives a successful
movement creation. -/
theorem mov_server_authoritative_witness :
    sampleB ∈ (addMov
      { produtos := [], allProdutos := [sampleA, sampleB], movs := [] }
      (.response true (sampleMov, sampleAUpd))).allProdutos :=
  (mov_server_authoritative
    { produtos := [], allProdutos := [sampleA, sampleB], movs := [] }
    sampleMov sampleAUpd ("a".toList)).2.2.2 sampleB (by decide) (by decide)

-- --- C5: pagination slices partition the filtered list ---

lemma pageSlices_concat_aux (S : Nat) (hS : 0 < S) :
    ∀ (n : Nat) (l : List Produto), (l.length + S - 1) / S = n →
      (List.range n).flatMap (fun k => (l.drop (k * S)).take S) = l := by
  intro n
  induction n with
  | zero =>
    intro l hl
    have hlen : l.length = 0 := by
      by_contra h
      have h1 : 1 ≤ l.length := Nat.one_le_iff_ne_zero.mpr h
      have h2 : S ≤ l.length + S - 1 := by omega
      have h3 : 1 ≤ (l.length + S - 1) / S := (Nat.one_le_div_iff hS).mpr h2
      omega
    rw [List.eq_nil_of_length_eq_zero hlen]
    rfl
  | succ n ih =>
    intro l hl
    have hlen : 1 ≤ l.length := by
      by_contra h
      have h0 : l.length = 0 := by omega
      rw [h0] at hl
      have : (0 + S - 1) / S = 0 := Nat.div_eq_of_lt (by omega)
      omega
    have hceil : (l.length - 1) / S = n := by
      have he : l.length + S - 1 = (l.length - 1) + S := by omega
      rw [he, Nat.add_div_right _ hS] at hl
      omega
    rw [List.range_succ_eq_map, List.flatMap_cons, List.flatMap_map]
    have hshift : ∀ k : Nat,
        (l.drop (Nat.succ k * S)).take S =
          ((l.drop S).drop (k * S)).take S := by
      intro k
      rw [List.drop_drop]
      have : S + k * S = Nat.succ k * S := by
        rw [Nat.succ_mul, Nat.add_comm]
      rw [this]
    have hbody : (List.range n).flatMap
          (fun k => (l.drop (Nat.succ k * S)).take S) =
        (List.range n).flatMap (fun k => ((l.drop S).drop (k * S)).take S) := by
      apply List.flatMap_congr
      intro k _
      exact hshift k
    have htail : ((l.drop S).length + S - 1) / S = n := by
      rw [List.length_drop]
      rcases Nat.le_total S l.length with hSl | hlS
      · have : l.length - S + S - 1 = l.length - 1 := by omega
        rw [this, hceil]
      · have h0 : l.length - S = 0 := by omega
        rw [h0]
        have h1 : (0 + S - 1) / S = 0 := Nat.div_eq_of_lt (by omega)
        have h2 : (l.length - 1) / S = 0 := Nat.div_eq_of_lt (by omega)
        omega
    rw [Nat.zero_mul, List.drop_zero, hbody, ih (l.drop S) htail,
      List.take_append_drop]

/-- **C5.** For any positive page size `S`, concatenating the page slices for
pages `1 .. ceil(N/S)` (each slice starting at `(page-1)*S` and at most `S`
long, as in `paginatedProdutos`) reproduces the whole filtered list — every
item exactly once, in order. -/
theorem pagination_pages_partition (S : Nat) (hS : 0 < S)
    (filtered : List Produto) :
    (List.range (totalPages filtered.length S)).flatMap
      (fun k => pageSlice S filtered (k + 1)) = filtered := by
  have hslice : ∀ k : Nat, pageSlice S filtered (k + 1) =
      (filtered.drop (k * S)).take S := by
    intro k
    unfold pageSlice
    have : k + 1 - 1 = k := by omega
    rw [this]
  have hbody : (List.range (totalPages filtered.length S)).flatMap
        (fun k => pageSlice S filtered (k + 1)) =
      (List.range (totalPages filtered.length S)).flatMap
        (fun k => (filtered.drop (k * S)).take S) := by
    apply List.flatMap_congr
    intro k _
    exact hslice k
  rw [hbody]
  exact pageSlices_concat_aux S hS (totalPages filtered.length S) filtered rfl

/-- Witness for C5: three concrete products, page size 2, two pages. -/
theorem pagination_pages_partition_witness :
    0 < 2 ∧
    (List.range (totalPages ([sampleA, sampleB, sampleAUpd] : List Produto).length 2)).flatMap
      (fun k => pageSlice 2 [sampleA, sampleB, sampleAUpd] (k + 1)) =
      [sampleA, sampleB, sampleAUpd] :=
  ⟨by decide, pagination_pages_partition 2 (by decide) [sampleA, sampleB, sampleAUpd]⟩

-- --- C6: page-click guard ---

/-- **C6.** Clicking a page below 1, above `totalPages`, or equal to the
current page triggers no `onPageChange` call; any other page in
`[1, totalPages]` is passed through and becomes the current page. -/
theorem handlePageClick_guard (t per : Nat) (cur pg : Int) :
    ((pg < 1 ∨ (totalPages t per : Int) < pg ∨ pg = cur) →
      handlePageClick t per cur pg = none) ∧
    (1 ≤ pg → pg ≤ (totalPages t per : Int) → pg ≠ cur →
      handlePageClick t per cur pg = some pg) := by
  constructor
  · intro h
    unfold handlePageClick
    rw [if_pos h]
  · intro h1 h2 h3
    unfold handlePageClick
    rw [if_neg]
    push_neg
    exact ⟨h1, h2, h3⟩

/-- Witness for C6: with 10 items and page size 3 (`totalPages = 4`),
clicking page 0 from page 2 is a no-op while clicking page 3 navigates. -/
theorem handlePageClick_guard_witness :
    handlePageClick 10 3 2 0 = none ∧ handlePageClick 10 3 2 3 = some 3 :=
  ⟨(handlePageClick_guard 10 3 2 0).1 (by decide),
   (handlePageClick_guard 10 3 2 3).2 (by decide) (by decide) (by decide)⟩

-- --- C7: page reset is keyed on the filtered list's LENGTH (corrected) ---

/-- **C7 counterexample.** Two filter criteria yield different filtered lists
of equal length; the page-reset effect, keyed on `filteredProdutos.length`
alone, does not re-run, and a current page of 2 survives instead of resetting
to 1 — refuting the claim that any change producing a new filtered result
resets the page. -/
theorem pageReset_same_length_cex :
    filteredProdutos false [] [sampleA, sampleB]
        { debouncedQ := "alpha".toList } ≠
      filteredProdutos false [] [sampleA, sampleB]
        { debouncedQ := "beta".toList } ∧
    pageResetEffect
        (filteredProdutos false [] [sampleA, sampleB]
          { debouncedQ := "alpha".toList }).length
        (filteredProdutos false [] [sampleA, sampleB]
          { debouncedQ := "beta".toList }).length 2 = 2 := by
  decide

/-- **C7 amended.** The current page is reset to 1 exactly when the
re-derived filtered list's length differs from the previous one; a new
filtered result of unchanged length leaves the page as it is. -/
theorem pageReset_on_length_change (prevLen newLen page : Nat) :
    (newLen ≠ prevLen → pageResetEffect prevLen newLen page = 1) ∧
    (newLen = prevLen → pageResetEffect prevLen newLen page = page) := by
  constructor
  · intro h
    unfold pageResetEffect
    rw [if_neg h]
  · intro h
    unfold pageResetEffect
    rw [if_pos h]

/-- Witness for C7 (amended): a length change resets to page 1, an unchanged
length keeps page 5. -/
theorem pageReset_on_length_change_witness :
    pageResetEffect 1 2 5 = 1 ∧ pageResetEffect 2 2 5 = 5 :=
  ⟨(pageReset_on_length_change 1 2 5).1 (by decide),
   (pageReset_on_length_change 2 2 5).2 (by decide)⟩

-- --- C8: reorder report contents ---

lemma reorderPred_iff (p : Produto) :
    reorderPred p = true ↔
      ∃ m, p.estoqueMinimo = some m ∧ p.quantidade < m := by
  cases hm : p.estoqueMinimo <;> simp [reorderPred, hm]

/-- Boolean form of `claimReorderPred`. -/
def claimReorderCheck (cat : Str) (p : Produto) : Bool :=
  (decide (cat = []) || decide (p.categoria = some cat)) && reorderPred p

lemma claimReorderCheck_iff (cat : Str) (p : Produto) :
    claimReorderCheck cat p = true ↔ claimReorderPred cat p := by
  simp [claimReorderCheck, claimReorderPred, reorderPred_iff]

instance instDecidableClaimReorderPred (cat : Str) (p : Produto) :
    Decidable (claimReorderPred cat p) :=
  decidable_of_iff (claimReorderCheck cat p = true) (claimReorderCheck_iff cat p)

lemma decide_claimReorderPred (cat : Str) (p : Produto) :
    decide (claimReorderPred cat p) = claimReorderCheck cat p := by
  by_cases h : claimReorderPred cat p
  · rw [decide_eq_true h, (claimReorderCheck_iff cat p).mpr h]
  · rw [decide_eq_false h]
    cases hc : claimReorderCheck cat p
    · rfl
    · exact absurd ((claimReorderCheck_iff cat p).mp hc) h

lemma relatorio_filter_fused (produtos : List Produto) (cat : Str) :
    (produtosParaRelatorio produtos cat).filter reorderPred =
      produtos.filter (claimReorderCheck cat) := by
  unfold produtosParaRelatorio
  by_cases hcat : cat = []
  · rw [if_pos hcat]
    apply List.filter_congr
    intro p _
    simp [claimReorderCheck, hcat]
  · rw [if_neg hcat, List.filter_filter]
    apply List.filter_congr
    intro p _
    simp [claimReorderCheck, hcat, Bool.and_comm]

/-- **C8.** The generated reorder report lists exactly the products matching
the selected category (when set) whose minimum stock is defined and whose
quantity is strictly below it, and every row's quantity-to-reorder equals the
minimum minus the current quantity. -/
theorem reorder_report_spec (produtos : List Produto) (cat : Str) :
    relatorioItemsToReorder produtos cat =
      (produtos.filter fun p => decide (claimReorderPred cat p)).map
        (fun p => (p, p.estoqueMinimo.getD 0 - p.quantidade)) ∧
    (∀ item ∈ relatorioItemsToReorder produtos cat,
      ∃ m, item.1.estoqueMinimo = some m ∧ item.1.quantidade < m ∧
        item.2 = m - item.1.quantidade) := by
  constructor
  · unfold relatorioItemsToReorder
    rw [relatorio_filter_fused]
    congr 1
    apply List.filter_congr
    intro p _
    exact (decide_claimReorderPred cat p).symm
  · intro item hitem
    unfold relatorioItemsToReorder at hitem
    rcases List.mem_map.mp hitem with ⟨p, hpmem, rfl⟩
    have hp := (List.mem_filter.mp hpmem).2
    rcases (reorderPred_iff p).mp hp with ⟨m, hm, hqm⟩
    refine ⟨m, hm, hqm, ?_⟩
    rw [hm]
    rfl

def sampleLow : Produto :=
  { id := "c".toList, sku := "sku-c".toList, nome := "gamma".toList,
    quantidade := 2, estoqueMinimo := some 5 }

/-- Witness for C8: a product with quantity 2 and minimum 5 yields a report
row with quantity-to-reorder 3. -/
theorem reorder_report_spec_witness :
    ∃ m, sampleLow.estoqueMinimo = some m ∧ sampleLow.quantidade < m ∧
      (3 : Int) = m - sampleLow.quantidade :=
  (reorder_report_spec [sampleLow] []).2 (sampleLow, 3) (by decide)

-- --- C9: the two below-minimum predicates differ exactly at the boundary ---

/-- **C9.** For a product whose minimum stock is defined and equal to its
quantity, the stock filter's `quantidade <= estoqueMinimo` test accepts it
while the reorder report's strict `quantidade < estoqueMinimo` test rejects
it; and in general the two predicates disagree precisely when
`estoqueMinimo = some quantidade`. -/
theorem belowMin_boundary (p : Produto) :
    (p.estoqueMinimo = some p.quantidade →
      matchesAbaixoMin true p = true ∧ reorderPred p = false) ∧
    ((matchesAbaixoMin true p ≠ reorderPred p) ↔
      p.estoqueMinimo = some p.quantidade) := by
  cases hm : p.estoqueMinimo with
  | none => simp [matchesAbaixoMin, reorderPred, hm]
  | some m =>
    constructor
    · intro h
      have hmq : m = p.quantidade := Option.some.inj h
      simp [matchesAbaixoMin, reorderPred, hm, hmq]
    · simp only [matchesAbaixoMin, reorderPred, hm, Bool.not_true,
        Bool.false_or, ne_eq, decide_eq_decide, Option.some.injEq]
      constructor
      · intro h
        by_contra hne
        apply h
        constructor <;> intro <;> omega
      · intro heq hiff
        have := hiff.mp (by omega)
        omega

/-- Witness for C9: quantity 4 with minimum 4 is kept by the filter and
dropped by the report. -/
theorem belowMin_boundary_witness :
    matchesAbaixoMin true sampleB = true ∧ reorderPred sampleB = false :=
  (belowMin_boundary sampleB).1 (by decide)

-- --- C10: successful creations prepend the server entity ---

/-- **C10.** A successful product creation prepends the server's product to
the cached product list and a successful movement creation prepends the
server's movement to the cached movement list; the previous entries follow
unchanged, in their previous order. -/
theorem creation_head_insert (st : AppState) (novo : Produto)
    (mov : Movimentacao) (prod : Produto) :
    (addProduto st (.response true novo)).allProdutos =
      novo :: st.allProdutos ∧
    (addMov st (.response true (mov, prod))).movs = mov :: st.movs :=
  ⟨rfl, rfl⟩
